import Mathlib

/-!
Verification development for the multi-source news aggregation core:
the similarity scorer and story clusterer (`articleGrouper`), the
normalizer (`services/normalize.js`), the group filter, the synthesis
fallbacks (`llmSummarizer`), and the paginator of the aggregate route
(`routes/newsAggregate.js`).

JavaScript strings are modelled as Lean `String` (the repository only
handles ASCII-range text in the code paths below, where JS `.length`,
`.toLowerCase()` and character classes agree with the Lean model).
JS `undefined` for an optional string is modelled as `Option.none`, and
JS truthiness of a string (`s ? … : …`, `a || b`) as "not the empty
string". Numbers that can be `NaN` on the modelled paths are
`Option Int` with `none` for `NaN`.
-/

namespace NewsCore

/-! ## Character-level helpers shared by the text pipeline -/

/-- JS regex class `\w` = `[A-Za-z0-9_]` (ASCII). -/
def isWordCh (c : Char) : Bool :=
  (('a' ≤ c && c ≤ 'z') || ('A' ≤ c && c ≤ 'Z') || ('0' ≤ c && c ≤ '9') || c = '_')

/-- JS regex class `\s` restricted to the whitespace characters that occur
in the data handled here (space, tab, CR, LF). -/
def isWs (c : Char) : Bool := c.isWhitespace

/-- ASCII lowercasing of one character, as `String.prototype.toLowerCase`
acts on the ASCII range. -/
def lowerCh (c : Char) : Char := c.toLower

/-- ASCII uppercasing of one character (`String.prototype.toUpperCase`). -/
def upperCh (c : Char) : Char := c.toUpper

/-- Trim leading and trailing whitespace (`String.prototype.trim`). -/
def trimChars (cs : List Char) : List Char :=
  ((cs.dropWhile isWs).reverse.dropWhile isWs).reverse

/-- `String.prototype.trim` on the `String` wrapper. -/
def jsTrim (s : String) : String := String.mk (trimChars s.toList)

/-- JS `s.substring(0, n)` (our code only ever uses start index 0). -/
def jsSubstring0 (s : String) (n : Nat) : String := String.mk (s.toList.take n)

/-- JS `s.lastIndexOf(' ')`: index of the last space character, `-1` if none. -/
def lastSpaceIdx (s : String) : Int :=
  match (s.toList.reverse.findIdx? (fun c => c = ' ')) with
  | none => -1
  | some i => (s.toList.length : Int) - 1 - i

/-- JS `s.charAt(0).toUpperCase() + s.slice(1)` — capitalize the first character. -/
def capitalize (s : String) : String :=
  match s.toList with
  | [] => ""
  | c :: rest => String.mk (upperCh c :: rest)

/-- Case-insensitive prefix test (ASCII), as a JS `/i` regex anchored at the start. -/
def startsWithCI (s : List Char) (pre : List Char) : Bool :=
  (s.take pre.length).map lowerCh = pre.map lowerCh

/-- JS `String.prototype.includes` (substring containment). -/
def jsIncludes (s : String) (sub : String) : Bool :=
  (s.toList.tails).any (fun t => sub.toList.isPrefixOf t)

/-! ## `services/articleGrouper.js` — similarity scorer -/

/-- The canonical normalized article record (`NormalizedArticle` in
`services/normalize.js`). All fields are strings in the JS pipeline;
optional raw fields have already been defaulted to `''` by normalization. -/
structure Article where
  id : String := ""
  source : String := ""
  title : String := ""
  description : String := ""
  content : String := ""
  url : String := ""
  imageUrl : String := ""
  publishedAt : String := ""
  author : String := ""
  language : String := ""
deriving Repr, DecidableEq, Inhabited

/-- `normalizeText` (articleGrouper lines 15–22): lowercase, replace
punctuation (non-`\w`, non-`\s`) by spaces, collapse whitespace runs, trim. -/
def normalizeText (text : String) : String :=
  let lowered := text.toList.map lowerCh
  let depunct := lowered.map (fun c => if isWordCh c || isWs c then c else ' ')
  -- collapse `\s+` to a single space, then trim
  let collapsed := (depunct.foldr
    (fun c acc => if isWs c then
        match acc with
        | ' ' :: _ => acc
        | _ => ' ' :: acc
      else c :: acc) [])
  String.mk (trimChars collapsed)

/-- Split a normalized string on whitespace runs, as
`normalized.split(/\s+/)` behaves on an already-trimmed string
(the empty string yields `[""]`, which the length filter removes). -/
def splitWords (s : String) : List String :=
  (s.toList.foldr
    (fun c acc =>
      if isWs c then [] :: acc
      else match acc with
        | [] => [[c]]
        | w :: ws => (c :: w) :: ws) []).map String.mk

/-- Count word occurrences in first-occurrence order, as a JS object keyed
by word preserves insertion order under `Object.entries`. -/
def countWords (ws : List String) : List (String × Nat) :=
  ws.foldl (fun acc w =>
    if acc.any (fun p => p.fst = w) then
      acc.map (fun p => if p.fst = w then (p.fst, p.snd + 1) else p)
    else acc ++ [(w, 1)]) []

/-- Stable insertion (descending by count) used to model the stable JS
`sort((a, b) => b[1] - a[1])` on the `[word, count]` entries. -/
def insertByCount (e : String × Nat) : List (String × Nat) → List (String × Nat)
  | [] => [e]
  | f :: rest => if f.snd < e.snd then e :: f :: rest else f :: insertByCount e rest

/-- Stable sort, descending by count. -/
def sortByCountDesc (l : List (String × Nat)) : List (String × Nat) :=
  l.foldr insertByCount []

/-- `extractKeyTerms` (articleGrouper lines 27–41): words of length > 3 from
the normalized text, ranked by frequency, top `maxTerms`. The result is a
list of pairwise-distinct words (a JS `Set` materialized in order). -/
def extractKeyTerms (text : String) (maxTerms : Nat := 10) : List String :=
  let words := (splitWords (normalizeText text)).filter (fun w => 3 < w.length)
  ((sortByCountDesc (countWords words)).take maxTerms).map Prod.fst

/-- `jaccardSimilarity` (articleGrouper lines 47–55). The two arguments are
the materialized term sets: lists of pairwise-distinct words, so list
lengths are the JS `Set.size`; `intersection.size / union.size` is modelled
as the exact rational (no value reaching it overflows a double). -/
def jaccardSimilarity (set1 set2 : List String) : ℚ :=
  if set1.length = 0 ∧ set2.length = 0 then 1
  else if set1.length = 0 ∨ set2.length = 0 then 0
  else
    mkRat (set1.filter (fun x => x ∈ set2)).length
      (set1 ++ set2.filter (fun x => x ∉ set1)).length

/-- Modelled external primitive: the host `Date` parser applied to
`article.publishedAt`, restricted to the ISO-8601 forms
`YYYY-MM-DD` and `YYYY-MM-DDTHH:MM:SSZ` (the forms the providers emit),
for years from 1970 on; every other string parses to `none`
(JS `NaN`, which disables the time bonus exactly like `none` does). -/
def digitVal (c : Char) : Option Nat := if c.isDigit then some (c.toNat - 48) else none

/-- Milliseconds at midnight UTC of a civil date given by six digit characters. -/
def dateOnlyMs (y1 y2 y3 y4 m1 m2 d1 d2 : Char) : Option Int := do
  let y := (← digitVal y1) * 1000 + (← digitVal y2) * 100 + (← digitVal y3) * 10 + (← digitVal y4)
  let m := (← digitVal m1) * 10 + (← digitVal m2)
  let d := (← digitVal d1) * 10 + (← digitVal d2)
  if 1970 ≤ y ∧ 1 ≤ m ∧ m ≤ 12 ∧ 1 ≤ d ∧ d ≤ 31 then
    let leap : Nat → Bool := fun yy => (yy % 4 = 0 && yy % 100 ≠ 0) || yy % 400 = 0
    let daysInYear : Nat → Nat := fun yy => if leap yy then 366 else 365
    let monthDays : List Nat :=
      [31, if leap y then 29 else 28, 31, 30, 31, 30, 31, 31, 30, 31, 30, 31]
    let yearDays := ((List.range (y - 1970)).map (fun k => daysInYear (1970 + k))).sum
    let monthOffset := ((monthDays.take (m - 1)).sum)
    pure ((yearDays + monthOffset + (d - 1) : Nat) * 86400000)
  else none

def parseDateMs (s : String) : Option Int :=
  match s.toList with
  | [y1, y2, y3, y4, '-', m1, m2, '-', d1, d2] => dateOnlyMs y1 y2 y3 y4 m1 m2 d1 d2
  | [y1, y2, y3, y4, '-', m1, m2, '-', d1, d2, 'T', h1, h2, ':', n1, n2, ':', s1, s2, 'Z'] => do
      let dayMs ← dateOnlyMs y1 y2 y3 y4 m1 m2 d1 d2
      let h := (← digitVal h1) * 10 + (← digitVal h2)
      let n := (← digitVal n1) * 10 + (← digitVal n2)
      let sec := (← digitVal s1) * 10 + (← digitVal s2)
      if h ≤ 23 ∧ n ≤ 59 ∧ sec ≤ 59 then
        pure (dayMs + ((h * 3600 + n * 60 + sec : Nat) * 1000))
      else none
  | _ => none

/-- Modelled external primitive: `new URL(u).hostname`, restricted to
absolute http(s) URLs (the only ones the providers emit); anything else
throws in JS, which the scorer catches — modelled as `none`. -/
def urlHostname (u : String) : Option String :=
  let afterScheme : Option String :=
    if u.startsWith "http://" then some (String.mk (u.toList.drop 7))
    else if u.startsWith "https://" then some (String.mk (u.toList.drop 8))
    else none
  afterScheme.bind (fun r =>
    let h := r.toList.takeWhile (fun c => c ≠ '/' && c ≠ ':' && c ≠ '?' && c ≠ '#')
    if h = [] then none else some (String.mk (h.map lowerCh)))

/-- Time-proximity bonus (articleGrouper lines 73–86): +0.1 when both
publish strings are truthy, both parse, and the dates are at most 7 days
apart. `|d1 - d2| / 86400000 ≤ 7` is compared exactly as integers. -/
def timeBonus (article1 article2 : Article) : ℚ :=
  if article1.publishedAt ≠ "" ∧ article2.publishedAt ≠ "" then
    match parseDateMs article1.publishedAt, parseDateMs article2.publishedAt with
    | some date1, some date2 =>
        if (date1 - date2).natAbs ≤ 7 * (1000 * 60 * 60 * 24) then 1/10 else 0
    | _, _ => 0
  else 0

/-- Same-domain bonus (articleGrouper lines 89–98): +0.05 when both URLs
parse and share a hostname. -/
def urlBonus (article1 article2 : Article) : ℚ :=
  match urlHostname article1.url, urlHostname article2.url with
  | some h1, some h2 => if h1 = h2 then 1/20 else 0
  | _, _ => 0

/-- `Math.min` on two (non-`NaN`) rationals. -/
def ratMin (a b : ℚ) : ℚ := if a ≤ b then a else b

/-- `calculateSimilarity` (articleGrouper lines 61–102):
`min(1, jaccard(title+description terms) + timeBonus + urlBonus)`, where the
term sets come from `title + " " + (description || "")` of each article. -/
def calculateSimilarity (article1 article2 : Article) : ℚ :=
  ratMin 1
    (jaccardSimilarity
        (extractKeyTerms (article1.title ++ " " ++ article1.description))
        (extractKeyTerms (article2.title ++ " " ++ article2.description))
      + timeBonus article1 article2 + urlBonus article1 article2)

/-! ## `services/articleGrouper.js` — story clusterer -/

/-- `ArticleGroup`: a story group with its sequential id and member articles
in insertion order (the first member is the representative). -/
structure Group where
  groupId : String := ""
  articles : List Article := []
deriving Repr, DecidableEq, Inhabited

/-- Group id assigned at creation: `group-<n>`. -/
def mkGroupId (n : Nat) : String := "group-" ++ toString n

/-- The best-group scan of `groupSimilarArticles` (lines 137–151): walk the
existing groups, comparing the candidate `article` with each group's first
article, keeping the first group that strictly beats the best similarity so
far, provided it reaches the threshold. `i` is the index of the group at the
head of the remaining list, `best`/`bestSim` the accumulator. -/
def findBestAux (article : Article) (threshold : ℚ) :
    List Group → Nat → Option Nat → ℚ → Option Nat
  | [], _, best, _ => best
  | group :: rest, i, best, bestSim =>
      let similarity := calculateSimilarity article group.articles.headI
      if threshold ≤ similarity ∧ bestSim < similarity then
        findBestAux article threshold rest (i + 1) (some i) similarity
      else
        findBestAux article threshold rest (i + 1) best bestSim

/-- Replace the `i`-th element of a list by `f` of it (out-of-range: no-op). -/
def updateAt (gs : List Group) (i : Nat) (f : Group → Group) : List Group :=
  match gs, i with
  | [], _ => []
  | g :: rest, 0 => f g :: rest
  | g :: rest, Nat.succ j => g :: updateAt rest j f

/-- One iteration of the clustering loop (lines 133–166): append the article
to the best matching group, or start a new singleton group named after the
current group count. -/
def insertArticle (threshold : ℚ) (groups : List Group) (article : Article) : List Group :=
  match findBestAux article threshold groups 0 none 0 with
  | some i => updateAt groups i (fun g => { g with articles := g.articles ++ [article] })
  | none => groups ++ [{ groupId := mkGroupId (groups.length + 1), articles := [article] }]

/-- The full single pass over the input pool. -/
def groupLoop (threshold : ℚ) (articles : List Article) : List Group :=
  articles.foldl (insertArticle threshold) []

/-- Stable insertion used to model the final
`groups.sort((a, b) => b.articles.length - a.articles.length)`
(stable, descending by member count). -/
def insertByLen (g : Group) : List Group → List Group
  | [] => [g]
  | h :: rest =>
      if h.articles.length ≤ g.articles.length then g :: h :: rest
      else h :: insertByLen g rest

/-- Stable sort of the groups, descending by member count. -/
def sortGroupsByLen (gs : List Group) : List Group := gs.foldr insertByLen []

/-- `groupSimilarArticles` (articleGrouper lines 123–183). The JS `used`
set is a per-index no-op (each index is visited once and added immediately
on both branches, so `used.has(i)` never fires) and the diagnostic logging
has no effect on the result; both are omitted. -/
def groupSimilarArticles (articles : List Article) (similarityThreshold : ℚ := 3/10) :
    List Group :=
  if articles.length = 0 then []
  else sortGroupsByLen (groupLoop similarityThreshold articles)

/-! ## `services/normalize.js` -/

/-- JS `a || b` on two possibly-`undefined` strings: keep `a` when truthy. -/
def jsOr (a b : Option String) : Option String :=
  match a with
  | some s => if s ≠ "" then some s else b
  | none => b

/-- JS `a || d` with a string literal default. -/
def jsOrD (a : Option String) (d : String) : String :=
  match a with
  | some s => if s ≠ "" then s else d
  | none => d

/-- JS string truthiness of a possibly-`undefined` value. -/
def truthy (a : Option String) : Bool :=
  match a with
  | some s => s ≠ ""
  | none => false

/-- JS template interpolation of a possibly-`undefined` value
(`undefined` prints as the string `"undefined"`). -/
def optTemplate (a : Option String) : String :=
  match a with
  | some s => s
  | none => "undefined"

/-- Modelled external primitive: the first 8 hex digits of the node
`crypto` md5 digest. No claim depends on id values, only on the id being a
pure function of its input, so the digest is modelled by a simple
deterministic 32-bit string hash rendered in hex. -/
def md5Hex8 (s : String) : String :=
  let h := s.toList.foldl (fun acc c => (acc * 33 + c.toNat) % 4294967296) 5381
  let hexDigit : Nat → Char := fun n =>
    if n < 10 then Char.ofNat (48 + n) else Char.ofNat (87 + n)
  String.mk ((List.range 8).map (fun i => hexDigit (h / 16 ^ (7 - i) % 16)))

/-- `createArticleId` (normalize lines 21–25). -/
def createArticleId (source : String) (url title : Option String) : String :=
  source ++ "-" ++ md5Hex8 (source ++ ":" ++ optTemplate url ++ ":" ++ optTemplate title)

/-- `raw.fields` of a Guardian record. -/
structure GuardianFields where
  trailText : Option String := none
  bodyText : Option String := none
  thumbnail : Option String := none
deriving Repr, DecidableEq, Inhabited

/-- One entry of `raw.tags` of a Guardian record. -/
structure RawTag where
  type : String := ""
  webTitle : Option String := none
deriving Repr, DecidableEq, Inhabited

/-- A raw provider record: the union of the dynamic fields the three
normalizers read (absent JS properties are `none`). -/
structure Raw where
  webUrl : Option String := none
  id : Option String := none
  webTitle : Option String := none
  fields : Option GuardianFields := none
  tags : Option (List RawTag) := none
  webPublicationDate : Option String := none
  url : Option String := none
  shareurl : Option String := none
  articleurl : Option String := none
  articleURL : Option String := none
  title : Option String := none
  seotitle : Option String := none
  seoTitle : Option String := none
  snippet : Option String := none
  seodescription : Option String := none
  seoDescription : Option String := none
  description : Option String := none
  content : Option String := none
  body : Option String := none
  seendate : Option String := none
  seenDate : Option String := none
  date : Option String := none
  time : Option String := none
  publishedAt : Option String := none
  published : Option String := none
  imageurl : Option String := none
  imageURL : Option String := none
  image : Option String := none
  source : Option String := none
  sourceName : Option String := none
  author : Option String := none
  language : Option String := none
deriving Repr, DecidableEq, Inhabited

/-- `normalizeGuardian` (normalize lines 40–53). -/
def normalizeGuardian (raw : Raw) : Article :=
  { id := createArticleId "guardian" (jsOr raw.webUrl raw.id) raw.webTitle
    source := "guardian"
    title := jsOrD raw.webTitle "No title"
    description := jsOrD (jsOr (raw.fields.bind GuardianFields.trailText)
      ((raw.fields.bind GuardianFields.bodyText).map (fun s => jsSubstring0 s 200))) ""
    content := jsOrD (jsOr (raw.fields.bind GuardianFields.bodyText)
      (raw.fields.bind GuardianFields.trailText)) ""
    url := jsOrD raw.webUrl ""
    imageUrl := jsOrD (raw.fields.bind GuardianFields.thumbnail) ""
    publishedAt := jsOrD raw.webPublicationDate ""
    author := jsOrD ((raw.tags.bind
      (fun ts => ts.find? (fun tg => tg.type = "contributor"))).bind RawTag.webTitle) ""
    language := "en" }

/-- `normalizeGdelt` (normalize lines 61–84). -/
def normalizeGdelt (raw : Raw) : Article :=
  let url := jsOrD (jsOr (jsOr (jsOr raw.url raw.shareurl) raw.articleurl) raw.articleURL) ""
  let title := jsOrD (jsOr (jsOr raw.title raw.seotitle) raw.seoTitle) "No title"
  let description :=
    jsOrD (jsOr (jsOr (jsOr raw.seodescription raw.seoDescription) raw.snippet)
      raw.description) ""
  { id := createArticleId "gdelt" (some url) (some title)
    source := "gdelt"
    title := title
    description := description
    content := jsOrD (jsOr raw.snippet raw.body) description
    url := url
    imageUrl := jsOrD (jsOr (jsOr raw.imageurl raw.imageURL) raw.image) ""
    publishedAt := jsOrD (jsOr (jsOr (jsOr (jsOr (jsOr raw.seendate raw.seenDate) raw.date)
      raw.time) raw.publishedAt) raw.published) ""
    author := jsOrD (jsOr (jsOr raw.source raw.sourceName) raw.author) ""
    language := jsOrD raw.language "en" }

/-- `normalizeCurrents` (normalize lines 99–112). -/
def normalizeCurrents (raw : Raw) : Article :=
  { id := createArticleId "currents" (some (jsOrD raw.url "")) raw.title
    source := "currents"
    title := jsOrD raw.title "No title"
    description := jsOrD raw.description ""
    content := jsOrD (jsOr raw.description raw.content) ""
    url := jsOrD raw.url ""
    imageUrl := jsOrD raw.image ""
    publishedAt := jsOrD raw.published ""
    author := jsOrD raw.author ""
    language := jsOrD raw.language "en" }

/-- The pre-mapping filter of `normalizeArticles` (normalize lines 138–143):
a record must have some truthy url field and some truthy title field. -/
def hasRequiredFields (article : Raw) : Bool :=
  (truthy article.webUrl || truthy article.url || truthy article.articleurl
    || truthy article.shareurl)
  && (truthy article.webTitle || truthy article.title || truthy article.seotitle)

/-- `normalizeArticles` (normalize lines 120–154). The input is a JS array
(the non-array guard of lines 121–124 cannot fire on a typed list). -/
def normalizeArticles (articles : List Raw) (source : String) : List Article :=
  let normalizer : Option (Raw → Article) :=
    match source with
    | "guardian" => some normalizeGuardian
    | "gdelt" => some normalizeGdelt
    | "currents" => some normalizeCurrents
    | _ => none
  match normalizer with
  | none => []
  | some f =>
      ((articles.filter hasRequiredFields).map f).filter
        (fun article => article.url ≠ "" && article.title ≠ "")

/-! ## `routes/newsAggregate.js` — group filter -/

/-- `[...new Set(xs)]`: distinct values in first-occurrence order. -/
def dedupFirst (l : List String) : List String :=
  l.foldl (fun acc s => if s ∈ acc then acc else acc ++ [s]) []

/-- The distinct sources of a group (newsAggregate line 166). -/
def uniqueSources (group : Group) : List String :=
  dedupFirst (group.articles.map Article.source)

/-- The lowercased, trimmed member titles (newsAggregate lines 176–178). -/
def normalizedTitles (group : Group) : List String :=
  group.articles.map (fun a => jsTrim (String.mk (a.title.toList.map lowerCh)))

/-- The filter predicate of newsAggregate lines 164–190: keep a group only
if it has at least 2 distinct sources, and not all member titles are
identical and non-empty (when it has more than one article). -/
def keepGroup (group : Group) : Bool :=
  if (uniqueSources group).length < 2 then false
  else if 1 < group.articles.length
      ∧ (normalizedTitles group).all
        (fun t => t = (normalizedTitles group).headI && t.length > 0) then false
  else true

/-- The group filter step (`groups.filter(...)`, newsAggregate line 164). -/
def filterGroups (groups : List Group) : List Group := groups.filter keepGroup

/-! ## `routes/newsAggregate.js` — page number parsing and pagination

JS numbers on this path are integers or `NaN`; they are modelled as
`Option Int` with `none` for `NaN`. -/

/-- `parseInt(s, 10)`: skip leading whitespace, optional sign, then leading
decimal digits; no digits yields `NaN`. -/
def parseIntTen (s : String) : Option Int :=
  let cs := s.toList.dropWhile isWs
  let signAndRest : Int × List Char :=
    match cs with
    | '-' :: rest => (-1, rest)
    | '+' :: rest => (1, rest)
    | _ => (1, cs)
  let ds := signAndRest.snd.takeWhile Char.isDigit
  if ds = [] then none
  else some (signAndRest.fst * (ds.foldl (fun acc c => acc * 10 + (c.toNat - 48)) 0 : Nat))

/-- `const pageNum = page ? parseInt(page, 10) : 1` (newsAggregate line 23),
with `page` the raw query value (`none` when the parameter is absent). -/
def routePageNum (page : Option String) : Option Int :=
  match page with
  | some p => if p ≠ "" then parseIntTen p else some 1
  | none => some 1

/-- `Math.min` with `NaN` propagation. -/
def jsMin (a b : Option Int) : Option Int :=
  match a, b with
  | some x, some y => some (if x ≤ y then x else y)
  | _, _ => none

/-- `Math.max` with `NaN` propagation. -/
def jsMax (a b : Option Int) : Option Int :=
  match a, b with
  | some x, some y => some (if x ≤ y then y else x)
  | _, _ => none

/-- Subtraction and multiplication with `NaN` propagation. -/
def jsSub (a : Option Int) (b : Int) : Option Int := a.map (fun x => x - b)

def jsMul (a : Option Int) (b : Int) : Option Int := a.map (fun x => x * b)

def jsAdd (a : Option Int) (b : Int) : Option Int := a.map (fun x => x + b)

/-- `Array.prototype.slice` index conversion: `ToIntegerOrInfinity` maps
`NaN` to 0; negative indices count from the end; the result is clamped to
`[0, len]`. -/
def toSliceIndex (v : Option Int) (len : Nat) : Nat :=
  match v with
  | none => 0
  | some i => if i < 0 then ((len : Int) + i).toNat else min i.toNat len

/-- `arr.slice(start, end)` with possibly-`NaN` indices. -/
def jsSlice {α : Type _} (l : List α) (s e : Option Int) : List α :=
  (l.take (toSliceIndex e l.length)).drop (toSliceIndex s l.length)

/-- The fixed page size (newsAggregate line 286). -/
def GROUPS_PER_PAGE : Nat := 9

/-- The pagination payload: the sliced groups plus the `pagination` object of
the response (newsAggregate lines 313–326). `currentPage` is `none` when the
computed page is `NaN` (serialized as JSON `null`). -/
structure PageResult (α : Type _) where
  groups : List α
  currentPage : Option Int
  totalPages : Int
  totalGroups : Nat
  groupsPerPage : Nat
deriving Repr, DecidableEq

/-- The universal pagination step (newsAggregate lines 280–326), generic in
the element type since it only slices the summarized-group array.
`Math.ceil(totalGroups / 9)` is the exact integer ceiling (array lengths are
far below any double-precision rounding). -/
def paginate {α : Type _} (summarizedGroups : List α) (pageNum : Option Int) : PageResult α :=
  let totalGroups := summarizedGroups.length
  let groupsPerPage := GROUPS_PER_PAGE
  let totalPages : Int :=
    if (1 : Int) ≤ ((totalGroups + groupsPerPage - 1) / groupsPerPage : Nat) then
      ((totalGroups + groupsPerPage - 1) / groupsPerPage : Nat)
    else 1
  let currentPage := jsMax (some 1) (jsMin pageNum (some totalPages))
  let startIndex := jsMul (jsSub currentPage 1) 9
  let endIndex := jsAdd startIndex 9
  let final0 := jsSlice summarizedGroups startIndex endIndex
  -- the two defensive re-checks of lines 301–310
  let final1 := if groupsPerPage < final0.length then final0.take groupsPerPage else final0
  let final2 := if GROUPS_PER_PAGE < final1.length then final1.take GROUPS_PER_PAGE else final1
  { groups := final2
    currentPage := currentPage
    totalPages := totalPages
    totalGroups := totalGroups
    groupsPerPage := GROUPS_PER_PAGE }

/-! ## `services/llmSummarizer.js` — neutral title extraction

The JS regexes are embedded with their exact backtracking semantics on the
ASCII range: leftmost match, greedy bounded quantifiers, alternatives tried
left to right, `/i` as ASCII case folding. -/

/-- Strip an anchored alternation with no trailing whitespace requirement:
`str.replace(/^(alt1|alt2|…)/i, '')`. -/
def stripAnchoredAlt (alts : List String) (s : String) : String :=
  match alts.findSome? (fun alt =>
      if startsWithCI s.toList alt.toList then some (String.mk (s.toList.drop alt.length))
      else none) with
  | some r => r
  | none => s

/-- `str.replace(/^(alt1|alt2|…)\s+/i, '')`: the matched alternative must be
followed by at least one whitespace character; the greedy `\s+` swallows the
whole run. -/
def stripAnchoredAltWs (alts : List String) (s : String) : String :=
  match alts.findSome? (fun alt =>
      if startsWithCI s.toList alt.toList
          ∧ isWs ((s.toList.drop alt.length).headD 'x') then
        some (String.mk ((s.toList.drop alt.length).dropWhile isWs))
      else none) with
  | some r => r
  | none => s

/-- `str.replace(/^(BREAKING|EXCLUSIVE|UPDATE|LIVE):\s*/i, '')`
(llmSummarizer line 378). -/
def stripBreakingPrefix (s : String) : String :=
  match ["BREAKING", "EXCLUSIVE", "UPDATE", "LIVE"].findSome? (fun alt =>
      if startsWithCI s.toList alt.toList
          ∧ (s.toList.drop alt.length).headD 'x' = ':' then
        some (String.mk ((s.toList.drop (alt.length + 1)).dropWhile isWs))
      else none) with
  | some r => r
  | none => s

/-- Whether the source-suffix regex
`/\s*-\s*(The Guardian|Guardian|GDELT|Currents|Reuters|AP|BBC).*$/i`
matches starting at the given character position. -/
def sourceSuffixAt (cs : List Char) : Bool :=
  let afterWs := cs.dropWhile isWs
  match afterWs with
  | '-' :: rest =>
      let afterDashWs := rest.dropWhile isWs
      ["The Guardian", "Guardian", "GDELT", "Currents", "Reuters", "AP", "BBC"].any
        (fun alt => startsWithCI afterDashWs alt.toList)
  | _ => false

/-- `str.replace(/\s*-\s*(The Guardian|…|BBC).*$/i, '')` (llmSummarizer
line 379): cut the string at the leftmost match (titles are single-line, so
`.*$` always reaches the end). -/
def stripSourceSuffix (s : String) : String :=
  let cs := s.toList
  match (List.range (cs.length + 1)).findSome? (fun p =>
      if sourceSuffixAt (cs.drop p) then some p else none) with
  | some p => String.mk (cs.take p)
  | none => s

/-- The verb alternation of the first action pattern (llmSummarizer line 274). -/
def actionVerbs1 : List String :=
  ["announces", "announced", "approves", "approved", "rejects", "rejected",
   "proposes", "proposed", "implements", "implemented", "introduces", "introduced",
   "launches", "launched", "reveals", "revealed", "confirms", "confirmed",
   "denies", "denied", "reports", "reported"]

/-- The noun alternation of the second action pattern (line 275). -/
def actionVerbs2 : List String :=
  ["protest", "protests", "protesting", "strike", "strikes", "striking",
   "election", "elections", "meeting", "meetings", "decision", "decisions",
   "policy", "policies", "law", "laws", "bill", "bills", "plan", "plans"]

/-- The verb alternation of the third action pattern (line 276). -/
def actionVerbs3 : List String :=
  ["breaks", "breaking", "happens", "happened", "occurs", "occurred",
   "develops", "developed", "emerges", "emerged"]

/-- ASCII letter (the class `[A-Z]` under `/i`). -/
def isAsciiLetter (c : Char) : Bool := ('a' ≤ c && c ≤ 'z') || ('A' ≤ c && c ≤ 'Z')

/-- Not a sentence terminator (the class `[^.!?]`). -/
def notTerm (c : Char) : Bool := c ≠ '.' && c ≠ '!' && c ≠ '?'

/-- Try to match `[A-Z][^.!?]{0,50}(kw1|kw2|…)[^.!?]{0,tailMax}` at the start
of `cs`, with the greedy/backtracking preferences of the JS engine: the
bounded gap takes as many characters as possible first, alternatives are
tried left to right, and the trailing gap is greedy. Returns the matched
(captured) prefix. -/
def actionMatchAt (kws : List String) (tailMax : Nat) (cs : List Char) : Option (List Char) :=
  match cs with
  | [] => none
  | c :: rest =>
      if isAsciiLetter c then
        let maxGap := min 50 (rest.takeWhile notTerm).length
        ((List.range (maxGap + 1)).map (fun k => maxGap - k)).findSome? (fun gap =>
          let afterGap := rest.drop gap
          kws.findSome? (fun kw =>
            if startsWithCI afterGap kw.toList then
              let afterKw := afterGap.drop kw.length
              let tailTaken := min tailMax (afterKw.takeWhile notTerm).length
              some (c :: rest.take gap ++ afterGap.take kw.length ++ afterKw.take tailTaken)
            else none))
      else none

/-- Leftmost match of one action pattern over the whole string
(`summary.match(pattern)`, capture group 1). -/
def actionMatch (kws : List String) (tailMax : Nat) (s : String) : Option String :=
  ((List.range (s.toList.length)).findSome? (fun p =>
      actionMatchAt kws tailMax (s.toList.drop p))).map String.mk

/-- Boilerplate alternation of the strategy-1 and strategy-4 replaces
(no trailing `\s+`; lines 285 and 367). -/
def boilerplateShort : List String :=
  ["This story", "The story", "This article", "The article", "According to",
   "Reports indicate", "Sources say", "Multiple sources"]

/-- Boilerplate alternation of the strategy-2 and strategy-3 replaces
(with trailing `\s+`; lines 310 and 350). -/
def boilerplateLong : List String :=
  boilerplateShort ++ ["The news", "A story", "In", "On", "At", "The", "A", "An"]

/-- Relative-pronoun alternation of the second strategy-2 replace (line 311). -/
def relativePronouns : List String :=
  ["that", "which", "who", "where", "when", "what", "how"]

/-- `truncated = s.substring(0, cut); lastSpace = truncated.lastIndexOf(' ');
if (lastSpace > minSpace) s = truncated.substring(0, lastSpace) else s = truncated`. -/
def truncateAtWord (s : String) (cut : Nat) (minSpace : Int) : String :=
  let truncated := jsSubstring0 s cut
  if minSpace < lastSpaceIdx truncated then
    jsSubstring0 truncated (lastSpaceIdx truncated).toNat
  else truncated

/-- `str.split(/[.!?]/)[0]`. -/
def firstSentencePart (s : String) : String :=
  String.mk (s.toList.takeWhile notTerm)

/-- `str.split(/\s+/).length` for an already-trimmed string. -/
def countWordsJs (s : String) : Nat :=
  if s = "" then 1 else ((splitWords s).filter (fun w => w ≠ "")).length

/-- Strategy 1 (llmSummarizer lines 272–304): action-verb clause extraction. -/
def strategyAction (s : String) : Option String :=
  [(actionVerbs1, 50), (actionVerbs2, 40), (actionVerbs3, 40)].findSome?
    (fun pat =>
      match actionMatch pat.fst pat.snd s with
      | none => none
      | some cap =>
          let phrase := jsTrim (stripAnchoredAlt boilerplateShort (jsTrim cap))
          if 20 ≤ phrase.length ∧ phrase.length ≤ 100 then
            let phrase := capitalize phrase
            some (if 100 < phrase.length then truncateAtWord phrase 97 50 else phrase)
          else none)

/-- Strategy 2 (lines 306–338): cleaned first sentence of the summary. -/
def strategyFirstSentence (s : String) : Option String :=
  let firstSentence := jsTrim (firstSentencePart s)
  if 15 < firstSentence.length then
    let neutral := jsTrim (stripAnchoredAltWs relativePronouns
      (stripAnchoredAltWs boilerplateLong firstSentence))
    let neutral := if 0 < neutral.length then capitalize neutral else neutral
    let wordCount := countWordsJs neutral
    if 3 ≤ wordCount ∧ wordCount ≤ 15 ∧ 20 ≤ neutral.length ∧ neutral.length ≤ 100 then
      some neutral
    else if 100 < neutral.length then
      let neutral := truncateAtWord neutral 97 50
      if 20 ≤ neutral.length then some neutral else none
    else none
  else none

/-- Strategy 3 (lines 340–357): first meaningful chunk of about 80 chars. -/
def strategyChunk80 (s : String) : Option String :=
  if 20 < s.length then
    let chunk := jsTrim (jsSubstring0 s 80)
    let chunk :=
      if 30 < lastSpaceIdx chunk then jsSubstring0 chunk (lastSpaceIdx chunk).toNat
      else chunk
    let chunk := jsTrim (stripAnchoredAltWs boilerplateLong chunk)
    if 20 ≤ chunk.length then some (capitalize chunk) else none
  else none

/-- Strategy 4 (lines 359–373): first chunk of about 70 chars, last resort
inside the summary block. -/
def strategyFallback70 (s : String) : Option String :=
  let f := jsSubstring0 s 70 |> jsTrim
  let f := if 20 < lastSpaceIdx f then jsSubstring0 f (lastSpaceIdx f).toNat else f
  let f := jsTrim (stripAnchoredAlt boilerplateShort f)
  if 15 ≤ f.length then some (capitalize f) else none

/-- The title block (lines 376–400). -/
def titleStrategy (t : String) : Option String :=
  let neutral := jsTrim (stripSourceSuffix (stripBreakingPrefix t))
  if 15 ≤ neutral.length ∧ neutral.length ≤ 100 then some neutral
  else
    let neutral := if 100 < neutral.length then truncateAtWord neutral 97 50 else neutral
    if 15 ≤ neutral.length then some neutral else none

/-- The description block (lines 403–408). -/
def descriptionStrategy (d : String) : Option String :=
  let firstSentence := jsTrim (firstSentencePart d)
  if 15 ≤ firstSentence.length ∧ firstSentence.length ≤ 100 then
    some (capitalize firstSentence)
  else none

/-- The final summary block (lines 412–419); always returns a value. -/
def shortSummaryStrategy (s : String) : String :=
  let chunk := jsTrim (jsSubstring0 s 60)
  if 15 < lastSpaceIdx chunk then capitalize (jsSubstring0 chunk (lastSpaceIdx chunk).toNat)
  else capitalize chunk

/-- `generateNeutralTitle` (llmSummarizer lines 267–423). Arguments are the
possibly-`undefined` title, description and summary. -/
def generateNeutralTitle (title description summary : Option String) : String :=
  let fromSummary : Option String :=
    match summary with
    | some s =>
        if 10 < s.length then
          match strategyAction s with
          | some r => some r
          | none =>
            match strategyFirstSentence s with
            | some r => some r
            | none =>
              match strategyChunk80 s with
              | some r => some r
              | none => strategyFallback70 s
        else none
    | none => none
  match fromSummary with
  | some r => r
  | none =>
    match (match title with
           | some t => if t ≠ "" then titleStrategy t else none
           | none => none) with
    | some r => r
    | none =>
      match (match description with
             | some d => if d ≠ "" ∧ 20 < d.length then descriptionStrategy d else none
             | none => none) with
      | some r => r
      | none =>
        match summary with
        | some s =>
            if s ≠ "" then shortSummaryStrategy s
            else match title with
                 | some t => if t ≠ "" then jsTrim (jsSubstring0 t 80)
                             else "Story from multiple sources"
                 | none => "Story from multiple sources"
        | none =>
            match title with
            | some t => if t ≠ "" then jsTrim (jsSubstring0 t 80)
                        else "Story from multiple sources"
            | none => "Story from multiple sources"

/-! ## `services/llmSummarizer.js` — group summarization

The HTTP call to the text-generation service and the JSON /
markdown-fence parsing of its reply are external to this module's logic;
they are modelled by an `LlmOutcome` input: either no credential is
configured, or the call/parse failed, or it produced a structured object. -/

/-- The structured object parsed from the generation-service reply; absent
fields are `none` (and `differences` is `none` when not an array). -/
structure ParsedLlm where
  groupTitle : Option String := none
  summary : Option String := none
  detailedComparison : Option String := none
  simpleComparison : Option String := none
  differences : Option (List String) := none
deriving Repr, DecidableEq, Inhabited

/-- Outcome of the external call in `summarizeArticleGroup`. -/
inductive LlmOutcome where
  | noKey : LlmOutcome
  | failure : LlmOutcome
  | parsed : ParsedLlm → LlmOutcome
deriving Repr, DecidableEq, Inhabited

/-- The group-summary record returned by `summarizeArticleGroup`. -/
structure GroupSummary where
  groupId : String := ""
  groupTitle : String := ""
  summary : String := ""
  detailedComparison : String := ""
  simpleComparison : String := ""
  differences : List String := []
deriving Repr, DecidableEq, Inhabited

/-- The generic-title check used at llmSummarizer lines 163–167 and repeated
at newsAggregate lines 228–232: missing/empty title, or a generic-pattern
substring (case-insensitive), or exactly `story <n>`, or shorter than 10
characters. -/
def genericPatterns : List String :=
  ["news story", "story 1", "story 2", "story 3", "latest news",
   "news coverage", "story from"]

/-- The exact pattern `/^story\s+\d+$/i`. -/
def matchesStoryNum (s : String) : Bool :=
  let cs := s.toList.map lowerCh
  if ['s', 't', 'o', 'r', 'y'].isPrefixOf cs then
    let rest := cs.drop 5
    let ws := rest.takeWhile isWs
    let ds := (rest.dropWhile isWs)
    0 < ws.length && 0 < ds.length && ds.all Char.isDigit
  else false

/-- `isGeneric` (llmSummarizer lines 164–167 / newsAggregate lines 229–232). -/
def isGenericTitle (groupTitle : Option String) : Bool :=
  match groupTitle with
  | none => true
  | some t =>
      t = ""
      || genericPatterns.any (fun pat => jsIncludes (String.mk (t.toList.map lowerCh)) pat)
      || matchesStoryNum t
      || t.length < 10

/-- Provider display names (`nameMap`, llmSummarizer lines 67 and 218). -/
def providerName (s : String) : String :=
  match s with
  | "guardian" => "The Guardian"
  | "gdelt" => "GDELT"
  | "currents" => "Currents"
  | _ => s

/-- `arr.join(sep)`. -/
def jsJoin (l : List String) (sep : String) : String := String.intercalate sep l

/-- Title of the first article, via the optional chain `articles[0]?.title`. -/
def headTitleOpt (articles : List Article) : Option String :=
  match articles with
  | [] => none
  | a :: _ => some a.title

/-- Description of the first article (`articles[0]?.description`). -/
def headDescriptionOpt (articles : List Article) : Option String :=
  match articles with
  | [] => none
  | a :: _ => some a.description

/-- `generateBasicSummary` (llmSummarizer lines 215–258): the deterministic
no-LLM fallback. -/
def generateBasicSummary (group : Group) : GroupSummary :=
  let sources := dedupFirst (group.articles.map Article.source)
  let sourceNames := sources.map providerName
  let titles := jsJoin (group.articles.map Article.title) "; "
  let descriptions :=
    jsJoin (((group.articles.map Article.description).filter (fun d => d ≠ "")).take 2) " "
  let detailedComparison :=
    "This story was covered by " ++ jsJoin sourceNames ", " ++ ". "
      ++ (if sources.length = 2 then "Each source provides its own perspective on the events."
          else "Each source offers a different angle on the story.")
  let simpleComparison :=
    if sources.length = 2 then
      sourceNames.headI ++ " and " ++ (sourceNames.getD 1 "")
        ++ " cover this story with different perspectives."
    else "Covered by " ++ jsJoin sourceNames ", " ++ " with varying perspectives."
  let summary :=
    if descriptions ≠ "" then descriptions
    else if titles ≠ "" then titles
    else "Multiple sources covered this story."
  let groupTitle := generateNeutralTitle (headTitleOpt group.articles)
    (headDescriptionOpt group.articles) (some summary)
  { groupId := group.groupId
    groupTitle := groupTitle
    summary := summary
    detailedComparison := detailedComparison
    simpleComparison := simpleComparison
    differences := sources.map (fun source =>
      let sourceArticles := group.articles.filter (fun a => a.source = source)
      source ++ ": " ++ toString sourceArticles.length ++ " article(s) - "
        ++ sourceArticles.headI.title) }

/-- `summarizeArticleGroup` (llmSummarizer lines 19–210). The `llm` argument
is the outcome of the external generation call for this group; the zero- and
single-article branches never reach it. The outer catch of lines 189–209 is
unreachable in the model (no exception can be raised on the modelled
paths). -/
def summarizeArticleGroup (llm : LlmOutcome) (group : Group) : GroupSummary :=
  match group.articles with
  | [] =>
      { groupId := group.groupId
        groupTitle := "News Story"
        summary := "No articles to summarize."
        detailedComparison := "No articles available for comparison."
        simpleComparison := "No articles available for comparison."
        differences := [] }
  | [article] =>
      let summary := if article.description ≠ "" then article.description else article.title
      let neutralTitle := generateNeutralTitle (some article.title)
        (some article.description) (some summary)
      { groupId := group.groupId
        groupTitle := neutralTitle
        summary := summary
        detailedComparison := "Only covered by " ++ article.source ++ "."
        simpleComparison := "Only covered by " ++ article.source ++ "."
        differences := ["Only covered by " ++ article.source ++ "."] }
  | _ =>
      match llm with
      | LlmOutcome.noKey => generateBasicSummary group
      | LlmOutcome.failure => generateBasicSummary group
      | LlmOutcome.parsed parsed =>
          let summary := jsOrD parsed.summary "Summary not available."
          -- a non-generic title is necessarily present and non-empty, so
          -- `jsOrD … ""` is the identity on that branch (JS uses the value as is)
          let groupTitle :=
            if isGenericTitle parsed.groupTitle then
              generateNeutralTitle (headTitleOpt group.articles)
                (headDescriptionOpt group.articles) (some summary)
            else jsOrD parsed.groupTitle ""
          { groupId := group.groupId
            groupTitle := groupTitle
            summary := summary
            detailedComparison := jsOrD (jsOr parsed.detailedComparison
              (parsed.differences.map (fun ds => jsJoin ds " "))) "Comparison not available."
            simpleComparison := jsOrD (jsOr parsed.simpleComparison
              (parsed.differences.bind List.head?)) "Articles differ in their focus and emphasis."
            differences := parsed.differences.getD [] }

/-! ## Concrete fixtures used by witnesses and counterexamples -/

/-- Four articles whose pairwise key-term Jaccard scores are
`J(B,A) = 2/5`, `J(C,A) = J(D,A) = 1/4`, `J(C,B) = J(D,B) = 3/5`,
`J(D,C) = 1/5` (no dates, no URLs, so no bonuses). -/
def artA : Article := { title := "alpha bravo grain haven" }

def artB : Article :=
  { title := "alpha bravo carta delta eagle frost grain haven index jolly" }

def artC : Article := { title := "alpha bravo carta delta eagle frost" }

def artD : Article := { title := "eagle frost grain haven index jolly" }

/-- A guardian-flavoured article fixture. -/
def artG : Article :=
  { id := "guardian-00000000", source := "guardian", title := "city council approves new transit budget",
    description := "the council voted on the budget", url := "https://example.org/a" }

/-- A currents-flavoured article covering the same story. -/
def artH : Article :=
  { id := "currents-00000000", source := "currents", title := "transit budget wins council approval vote",
    description := "", url := "https://example.net/b" }

/-- A second guardian article, single-source fixture. -/
def artK : Article :=
  { id := "guardian-11111111", source := "guardian", title := "local team wins the championship final",
    description := "", url := "https://example.org/c" }

/-- A raw record with a usable url but no usable title. -/
def rawNoTitle : Raw := { webUrl := some "https://example.org/x" }

/-- A raw record with both required fields. -/
def rawGood : Raw :=
  { webUrl := some "https://example.org/y", webTitle := some "a proper headline" }

/-- Similarity of an article against the representative (first member) of
the `j`-th group of a group list, the quantity the best-group scan compares. -/
def repSim (article : Article) (gs : List Group) (j : Nat) : ℚ :=
  calculateSimilarity article ((gs.getD j default).articles.headI)

/-- A two-source group fixture. -/
def grpMulti : Group := { groupId := "group-1", articles := [artG, artH] }

/-- A single-source group fixture. -/
def grpSingle : Group := { groupId := "group-2", articles := [artK] }

end NewsCore

namespace NewsCore

open scoped List

/-! ## Helper lemmas -/

theorem jaccardSimilarity_nonneg (set1 set2 : List String) :
    0 ≤ jaccardSimilarity set1 set2 := by
  unfold jaccardSimilarity
  split
  · norm_num
  · split
    · norm_num
    · rw [Rat.mkRat_eq_divInt, Rat.divInt_eq_div]
      positivity

theorem jaccardSimilarity_le_one (set1 set2 : List String) :
    jaccardSimilarity set1 set2 ≤ 1 := by
  unfold jaccardSimilarity
  split
  · norm_num
  next h1 =>
    split
    · norm_num
    next h2 =>
      push_neg at h2
      rw [Rat.mkRat_eq_divInt, Rat.divInt_eq_div]
      have hlen : (set1.filter (fun x => x ∈ set2)).length
          ≤ (set1 ++ set2.filter (fun x => x ∉ set1)).length := by
        rw [List.length_append]
        exact le_trans (List.length_filter_le _ _) (Nat.le_add_right _ _)
      have hpos : 0 < (set1 ++ set2.filter (fun x => x ∉ set1)).length := by
        rw [List.length_append]
        exact lt_of_lt_of_le (Nat.pos_of_ne_zero h2.1) (Nat.le_add_right _ _)
      rw [div_le_one (by exact_mod_cast hpos)]
      exact_mod_cast hlen

theorem jaccardSimilarity_self (s : List String) : jaccardSimilarity s s = 1 := by
  unfold jaccardSimilarity
  split
  · rfl
  next h1 =>
    split
    next h2 =>
      exact absurd (h2.elim (fun h => ⟨h, h⟩) (fun h => ⟨h, h⟩)) h1
    next h2 =>
      push_neg at h2
      have hfil : s.filter (fun x => decide (x ∈ s)) = s :=
        List.filter_eq_self.mpr (fun a ha => by simpa using ha)
      have hnil : s.filter (fun x => decide (x ∉ s)) = [] :=
        List.filter_eq_nil_iff.mpr (fun a ha => by simpa using ha)
      simp only [hfil, hnil, List.append_nil]
      rw [Rat.mkRat_eq_divInt, Rat.divInt_eq_div]
      have : (s.length : ℚ) ≠ 0 := by exact_mod_cast h2.1
      push_cast
      exact div_self this

theorem timeBonus_nonneg (a b : Article) : 0 ≤ timeBonus a b := by
  unfold timeBonus
  split
  · split <;> try norm_num
    split <;> norm_num
  · norm_num

theorem urlBonus_nonneg (a b : Article) : 0 ≤ urlBonus a b := by
  unfold urlBonus
  split <;> try norm_num
  split <;> norm_num

/-! ## C5 — similarity bounds and self-similarity -/

/-- C5: for every pair of articles, `calculateSimilarity` lies in `[0, 1]`
(it is `min(1, Jaccard + time bonus + domain bonus)`), and
`calculateSimilarity a a = 1` whenever `a` has a non-empty title or
description. -/
theorem similarity_bounds_and_self :
    (∀ a b : Article, 0 ≤ calculateSimilarity a b ∧ calculateSimilarity a b ≤ 1) ∧
    (∀ a : Article, a.title ≠ "" ∨ a.description ≠ "" → calculateSimilarity a a = 1) := by
  constructor
  · intro a b
    have h1 := jaccardSimilarity_nonneg (extractKeyTerms (a.title ++ " " ++ a.description))
      (extractKeyTerms (b.title ++ " " ++ b.description))
    have h2 := timeBonus_nonneg a b
    have h3 := urlBonus_nonneg a b
    unfold calculateSimilarity ratMin
    constructor
    · split
      · norm_num
      · linarith
    · split
      next h => linarith
      next h => push_neg at h; linarith
  · intro a _h
    have h2 := timeBonus_nonneg a a
    have h3 := urlBonus_nonneg a a
    unfold calculateSimilarity ratMin
    rw [jaccardSimilarity_self]
    rw [if_pos (by linarith)]

/-- C5 witness: the bounds at a concrete article pair, and self-similarity 1
at a concrete article with a non-empty title. -/
theorem similarity_bounds_and_self_witness :
    (0 ≤ calculateSimilarity artG artH ∧ calculateSimilarity artG artH ≤ 1) ∧
    calculateSimilarity artG artG = 1 :=
  ⟨similarity_bounds_and_self.1 artG artH,
   similarity_bounds_and_self.2 artG (Or.inl (by decide))⟩

/-! ## The best-group scan: full characterization -/

theorem repSim_cons_zero (article : Article) (g : Group) (rest : List Group) :
    repSim article (g :: rest) 0 = calculateSimilarity article g.articles.headI := rfl

theorem repSim_cons_succ (article : Article) (g : Group) (rest : List Group) (j : Nat) :
    repSim article (g :: rest) (j + 1) = repSim article rest j := rfl

/-- Invariant of `findBestAux`: either no group qualifies and beats the
incoming accumulator and the scan returns it unchanged, or the scan returns
the position of the first group attaining the maximal qualifying similarity
that beats the accumulator. -/
theorem findBestAux_spec (article : Article) (t : ℚ) :
    ∀ (gs : List Group) (i0 : Nat) (b : Option Nat) (bs : ℚ), 0 ≤ bs →
      (findBestAux article t gs i0 b bs = b ∧
        ∀ j, j < gs.length → t ≤ repSim article gs j → repSim article gs j ≤ bs)
      ∨ (∃ j, j < gs.length ∧ findBestAux article t gs i0 b bs = some (i0 + j) ∧
          t ≤ repSim article gs j ∧ bs < repSim article gs j ∧
          (∀ k, k < j → repSim article gs k < repSim article gs j) ∧
          (∀ k, j < k → k < gs.length → t ≤ repSim article gs k →
            repSim article gs k ≤ repSim article gs j)) := by
  intro gs
  induction gs with
  | nil =>
      intro i0 b bs _hbs
      exact Or.inl ⟨rfl, fun j hj => absurd hj (Nat.not_lt_zero j)⟩
  | cons g rest ih =>
      intro i0 b bs hbs
      by_cases hc : t ≤ calculateSimilarity article g.articles.headI ∧
          bs < calculateSimilarity article g.articles.headI
      · have hstep : findBestAux article t (g :: rest) i0 b bs
            = findBestAux article t rest (i0 + 1) (some i0)
                (calculateSimilarity article g.articles.headI) := by
          simp only [findBestAux]
          rw [if_pos hc]
        rcases ih (i0 + 1) (some i0) (calculateSimilarity article g.articles.headI)
            (le_trans hbs (le_of_lt hc.2)) with ⟨heq, hall⟩ | ⟨j, hj, heq, hq, hbeat, hfirst, hlast⟩
        · refine Or.inr ⟨0, Nat.succ_pos _, ?_, hc.1, hc.2, ?_, ?_⟩
          · rw [hstep, heq, Nat.add_zero]
          · intro k hk
            exact absurd hk (Nat.not_lt_zero k)
          · intro k hk0 hklen hkt
            cases k with
            | zero => exact absurd hk0 (Nat.lt_irrefl 0)
            | succ k =>
                rw [repSim_cons_succ] at hkt ⊢
                exact hall k (Nat.lt_of_succ_lt_succ hklen) hkt
        · refine Or.inr ⟨j + 1, Nat.succ_lt_succ hj, ?_, ?_, ?_, ?_, ?_⟩
          · rw [hstep, heq]
            congr 1
            omega
          · rw [repSim_cons_succ]
            exact hq
          · rw [repSim_cons_succ]
            exact lt_trans hc.2 hbeat
          · intro k hk
            cases k with
            | zero =>
                rw [repSim_cons_zero, repSim_cons_succ]
                exact hbeat
            | succ k =>
                rw [repSim_cons_succ, repSim_cons_succ]
                exact hfirst k (Nat.lt_of_succ_lt_succ hk)
          · intro k hk0 hklen hkt
            cases k with
            | zero => exact absurd hk0 (Nat.not_lt_zero _)
            | succ k =>
                rw [repSim_cons_succ] at hkt ⊢
                exact hlast k (Nat.lt_of_succ_lt_succ hk0) (Nat.lt_of_succ_lt_succ hklen) hkt
      · have hstep : findBestAux article t (g :: rest) i0 b bs
            = findBestAux article t rest (i0 + 1) b bs := by
          simp only [findBestAux]
          rw [if_neg hc]
        rcases ih (i0 + 1) b bs hbs with ⟨heq, hall⟩ | ⟨j, hj, heq, hq, hbeat, hfirst, hlast⟩
        · refine Or.inl ⟨by rw [hstep, heq], ?_⟩
          intro j hjlen hjt
          cases j with
          | zero =>
              rw [repSim_cons_zero] at hjt ⊢
              rcases not_and_or.mp hc with hlt | hle
              · exact absurd hjt hlt
              · exact le_of_not_lt hle
          | succ j =>
              rw [repSim_cons_succ] at hjt ⊢
              exact hall j (Nat.lt_of_succ_lt_succ hjlen) hjt
        · refine Or.inr ⟨j + 1, Nat.succ_lt_succ hj, ?_, ?_, ?_, ?_, ?_⟩
          · rw [hstep, heq]
            congr 1
            omega
          · rw [repSim_cons_succ]
            exact hq
          · rw [repSim_cons_succ]
            exact hbeat
          · intro k hk
            cases k with
            | zero =>
                rw [repSim_cons_zero, repSim_cons_succ]
                rcases not_and_or.mp hc with hlt | hle
                · exact lt_of_lt_of_le (lt_of_not_le hlt) hq
                · exact lt_of_le_of_lt (le_of_not_lt hle) hbeat
            | succ k =>
                rw [repSim_cons_succ, repSim_cons_succ]
                exact hfirst k (Nat.lt_of_succ_lt_succ hk)
          · intro k hk0 hklen hkt
            cases k with
            | zero => exact absurd hk0 (Nat.not_lt_zero _)
            | succ k =>
                rw [repSim_cons_succ] at hkt ⊢
                exact hlast k (Nat.lt_of_succ_lt_succ hk0) (Nat.lt_of_succ_lt_succ hklen) hkt

/-! ## C6 — deterministic tie-break towards the earliest group -/

/-- C6: when the best-group scan selects group `i`, that group reaches the
threshold, every tying group at the maximal similarity has index at least
`i` (the earliest-created group wins), and the article is appended to
exactly that group. -/
theorem tie_break_earliest (gs : List Group) (article : Article) (t : ℚ) (i : Nat)
    (h : findBestAux article t gs 0 none 0 = some i) :
    i < gs.length ∧ t ≤ repSim article gs i ∧
    (∀ j, j < gs.length → t ≤ repSim article gs j →
      repSim article gs j = repSim article gs i → i ≤ j) ∧
    insertArticle t gs article
      = updateAt gs i (fun g => { g with articles := g.articles ++ [article] }) := by
  rcases findBestAux_spec article t gs 0 none 0 le_rfl with ⟨heq, _⟩ |
      ⟨j, hj, heq, hq, _hbeat, hfirst, _hlast⟩
  · rw [heq] at h
    cases h
  · rw [heq] at h
    have hij : j = i := by
      have := Option.some.inj h
      omega
    subst hij
    refine ⟨hj, hq, ?_, ?_⟩
    · intro k hklen hkt hkeq
      by_contra hcon
      push_neg at hcon
      exact absurd hkeq (ne_of_lt (hfirst k hcon))
    · unfold insertArticle
      rw [heq, Nat.zero_add]

/-- C6 witness: two groups with identical representatives tie at
similarity 1 for the incoming article; the scan picks index 0 (the
earliest group) and the article is appended there. -/
theorem tie_break_earliest_witness :
    0 < ([⟨"group-1", [artG]⟩, ⟨"group-2", [artG]⟩] : List Group).length ∧
    insertArticle (3/10) [⟨"group-1", [artG]⟩, ⟨"group-2", [artG]⟩] artG
      = updateAt [⟨"group-1", [artG]⟩, ⟨"group-2", [artG]⟩] 0
          (fun g => { g with articles := g.articles ++ [artG] }) := by
  have h := tie_break_earliest [⟨"group-1", [artG]⟩, ⟨"group-2", [artG]⟩] artG (3/10) 0
    (by with_unfolding_all rfl)
  exact ⟨h.1, h.2.2.2⟩

/-! ## C1 — the clustering is a partition of the input pool -/

theorem updateAt_length (gs : List Group) (i : Nat) (f : Group → Group) :
    (updateAt gs i f).length = gs.length := by
  induction gs generalizing i with
  | nil => rfl
  | cons g rest ih =>
      cases i with
      | zero => rfl
      | succ j => simpa [updateAt] using ih j

theorem flatten_updateAt_perm (gs : List Group) (a : Article) :
    ∀ i, i < gs.length →
      ((updateAt gs i (fun g => { g with articles := g.articles ++ [a] })).map
          Group.articles).flatten
        ~ (gs.map Group.articles).flatten ++ [a] := by
  induction gs with
  | nil => intro i hi; exact absurd hi (Nat.not_lt_zero i)
  | cons g rest ih =>
      intro i hi
      cases i with
      | zero =>
          simp only [updateAt, List.map_cons, List.flatten_cons]
          calc (g.articles ++ [a]) ++ (rest.map Group.articles).flatten
              = g.articles ++ ([a] ++ (rest.map Group.articles).flatten) :=
                List.append_assoc g.articles [a] _
            _ ~ g.articles ++ ((rest.map Group.articles).flatten ++ [a]) :=
                List.Perm.append_left _ List.perm_append_comm
            _ = (g.articles ++ (rest.map Group.articles).flatten) ++ [a] :=
                (List.append_assoc g.articles _ [a]).symm
      | succ j =>
          simp only [updateAt, List.map_cons, List.flatten_cons]
          calc g.articles
                ++ ((updateAt rest j (fun g => { g with articles := g.articles ++ [a] })).map
                    Group.articles).flatten
              ~ g.articles ++ ((rest.map Group.articles).flatten ++ [a]) :=
                List.Perm.append_left _ (ih j (Nat.lt_of_succ_lt_succ hi))
            _ = (g.articles ++ (rest.map Group.articles).flatten) ++ [a] :=
                (List.append_assoc g.articles _ [a]).symm

theorem insertArticle_flatten_perm (t : ℚ) (gs : List Group) (a : Article) :
    ((insertArticle t gs a).map Group.articles).flatten
      ~ (gs.map Group.articles).flatten ++ [a] := by
  unfold insertArticle
  cases hfb : findBestAux a t gs 0 none 0 with
  | none =>
      simp only [List.map_append, List.flatten_append, List.map_cons, List.map_nil,
        List.flatten_cons, List.flatten_nil, List.append_nil]
      exact List.Perm.refl _
  | some i =>
      have hi : i < gs.length := by
        rcases findBestAux_spec a t gs 0 none 0 le_rfl with ⟨heq, _⟩ |
            ⟨j, hj, heq, _, _, _, _⟩
        · rw [heq] at hfb
          cases hfb
        · rw [heq] at hfb
          have := Option.some.inj hfb
          omega
      exact flatten_updateAt_perm gs a i hi

theorem groupLoop_flatten_perm (t : ℚ) :
    ∀ (arts : List Article) (gs : List Group),
      ((arts.foldl (insertArticle t) gs).map Group.articles).flatten
        ~ (gs.map Group.articles).flatten ++ arts := by
  intro arts
  induction arts with
  | nil => intro gs; simp
  | cons a rest ih =>
      intro gs
      have h1 := ih (insertArticle t gs a)
      have h2 := insertArticle_flatten_perm t gs a
      calc ((List.foldl (insertArticle t) (insertArticle t gs a) rest).map
              Group.articles).flatten
          ~ ((insertArticle t gs a).map Group.articles).flatten ++ rest := h1
        _ ~ ((gs.map Group.articles).flatten ++ [a]) ++ rest :=
            List.Perm.append_right rest h2
        _ = (gs.map Group.articles).flatten ++ (a :: rest) := by
            rw [List.append_assoc]
            rfl

theorem insertByLen_perm (g : Group) (l : List Group) : insertByLen g l ~ g :: l := by
  induction l with
  | nil => exact List.Perm.refl _
  | cons h rest ih =>
      unfold insertByLen
      split
      · exact List.Perm.refl _
      · exact List.Perm.trans (List.Perm.cons h ih) (List.Perm.swap g h rest)

theorem sortGroupsByLen_perm (gs : List Group) : sortGroupsByLen gs ~ gs := by
  induction gs with
  | nil => exact List.Perm.refl _
  | cons g rest ih =>
      exact List.Perm.trans (insertByLen_perm g (sortGroupsByLen rest)) (List.Perm.cons g ih)

/-- C1: `groupSimilarArticles` partitions its input pool — the concatenation
of the produced groups is a permutation of the input list (so every article
lands in exactly one group, none duplicated, none dropped), and the group
sizes sum to the input length. -/
theorem grouping_partition (articles : List Article) (t : ℚ) :
    ((groupSimilarArticles articles t).map Group.articles).flatten ~ articles ∧
    ((groupSimilarArticles articles t).map (fun g => g.articles.length)).sum
      = articles.length := by
  have hperm : ((groupSimilarArticles articles t).map Group.articles).flatten ~ articles := by
    unfold groupSimilarArticles
    split
    next hlen =>
      have : articles = [] := List.length_eq_zero.mp hlen
      subst this
      exact List.Perm.refl _
    next hlen =>
      have hs : sortGroupsByLen (groupLoop t articles) ~ groupLoop t articles :=
        sortGroupsByLen_perm _
      have h1 := (hs.map Group.articles).flatten
      have h2 := groupLoop_flatten_perm t articles []
      unfold groupLoop at h2
      simpa using h1.trans h2
  refine ⟨hperm, ?_⟩
  have hlen := hperm.length_eq
  rw [List.length_flatten, List.map_map] at hlen
  exact hlen

/-! ## C2 — threshold monotonicity -/

theorem sortGroupsByLen_length (gs : List Group) :
    (sortGroupsByLen gs).length = gs.length :=
  (sortGroupsByLen_perm gs).length_eq

theorem insertArticle_nil (t : ℚ) (a : Article) :
    insertArticle t [] a = [⟨mkGroupId 1, [a]⟩] := rfl

theorem findBestAux_single (x : Article) (t : ℚ) (g : Group) :
    findBestAux x t [g] 0 none 0
      = if t ≤ calculateSimilarity x g.articles.headI
            ∧ 0 < calculateSimilarity x g.articles.headI then some 0
        else none := by
  simp only [findBestAux]

/-- The scan finds no group exactly when no group both reaches the threshold
and has positive similarity (the initial best of 0 must be strictly beaten). -/
theorem findBestAux_none_iff (x : Article) (t : ℚ) (gs : List Group) :
    findBestAux x t gs 0 none 0 = none
      ↔ ∀ j, j < gs.length → t ≤ repSim x gs j → repSim x gs j ≤ 0 := by
  constructor
  · intro hnone
    rcases findBestAux_spec x t gs 0 none 0 le_rfl with ⟨_, hall⟩ |
        ⟨j, _, heq, _, _, _, _⟩
    · exact hall
    · rw [heq] at hnone
      cases hnone
  · intro hall
    rcases findBestAux_spec x t gs 0 none 0 le_rfl with ⟨heq, _⟩ |
        ⟨j, hj, _, hq, hbeat, _, _⟩
    · exact heq
    · exact absurd (hall j hj hq) (not_le.mpr hbeat)

theorem insertArticle_length (t : ℚ) (gs : List Group) (a : Article) :
    (insertArticle t gs a).length
      = if findBestAux a t gs 0 none 0 = none then gs.length + 1 else gs.length := by
  unfold insertArticle
  cases hfb : findBestAux a t gs 0 none 0 with
  | none => simp
  | some i => simp [updateAt_length]

theorem groupLoop_two (t : ℚ) (a b : Article) :
    groupLoop t [a, b]
      = if t ≤ calculateSimilarity b a ∧ 0 < calculateSimilarity b a then
          [⟨mkGroupId 1, [a, b]⟩]
        else [⟨mkGroupId 1, [a]⟩, ⟨mkGroupId 2, [b]⟩] := by
  show insertArticle t (insertArticle t [] a) b = _
  rw [insertArticle_nil]
  unfold insertArticle
  rw [findBestAux_single]
  by_cases hc : t ≤ calculateSimilarity b a ∧ 0 < calculateSimilarity b a
  · rw [if_pos (by simpa using hc), if_pos hc]
    rfl
  · rw [if_neg (by simpa using hc), if_neg hc]
    rfl

theorem numGroups_one (t : ℚ) (a : Article) :
    (groupSimilarArticles [a] t).length = 1 := by
  unfold groupSimilarArticles
  rw [if_neg (by simp), sortGroupsByLen_length]
  rfl

theorem numGroups_two (t : ℚ) (a b : Article) :
    (groupSimilarArticles [a, b] t).length
      = if t ≤ calculateSimilarity b a ∧ 0 < calculateSimilarity b a then 1 else 2 := by
  unfold groupSimilarArticles
  rw [if_neg (by simp), sortGroupsByLen_length]
  have hloop : groupLoop t [a, b] = groupLoop t [a, b] := rfl
  rw [groupLoop_two]
  split <;> rfl

theorem numGroups_three (t : ℚ) (a b c : Article) :
    (groupSimilarArticles [a, b, c] t).length
      = if t ≤ calculateSimilarity b a ∧ 0 < calculateSimilarity b a then
          (if t ≤ calculateSimilarity c a ∧ 0 < calculateSimilarity c a then 1 else 2)
        else
          (if (t ≤ calculateSimilarity c a ∧ 0 < calculateSimilarity c a)
              ∨ (t ≤ calculateSimilarity c b ∧ 0 < calculateSimilarity c b) then 2
           else 3) := by
  unfold groupSimilarArticles
  rw [if_neg (by simp), sortGroupsByLen_length]
  have hloop : groupLoop t [a, b, c] = insertArticle t (groupLoop t [a, b]) c := rfl
  rw [hloop, groupLoop_two]
  by_cases h1 : t ≤ calculateSimilarity b a ∧ 0 < calculateSimilarity b a
  · rw [if_pos h1, if_pos h1, insertArticle_length, findBestAux_single]
    by_cases h2 : t ≤ calculateSimilarity c a ∧ 0 < calculateSimilarity c a
    · simp [h2]
    · simp [h2]
  · rw [if_neg h1, if_neg h1, insertArticle_length]
    by_cases h2 : (t ≤ calculateSimilarity c a ∧ 0 < calculateSimilarity c a)
        ∨ (t ≤ calculateSimilarity c b ∧ 0 < calculateSimilarity c b)
    · have hne : findBestAux c t [⟨mkGroupId 1, [a]⟩, ⟨mkGroupId 2, [b]⟩] 0 none 0 ≠ none := by
        rw [Ne, findBestAux_none_iff]
        push_neg
        rcases h2 with h | h
        · refine ⟨0, by norm_num, ?_, ?_⟩
          · simpa [repSim_cons_zero] using h.1
          · simpa [repSim_cons_zero] using h.2
        · refine ⟨1, by norm_num, ?_, ?_⟩
          · simpa [repSim_cons_succ, repSim_cons_zero] using h.1
          · simpa [repSim_cons_succ, repSim_cons_zero] using h.2
      rw [if_neg hne, if_pos h2]
      rfl
    · have heq : findBestAux c t [⟨mkGroupId 1, [a]⟩, ⟨mkGroupId 2, [b]⟩] 0 none 0 = none := by
        rw [findBestAux_none_iff]
        push_neg at h2
        intro j hj hq
        cases j with
        | zero =>
            rw [repSim_cons_zero] at hq ⊢
            simp only [List.headI] at hq ⊢
            exact h2.1 hq
        | succ j =>
            cases j with
            | zero =>
                rw [repSim_cons_succ, repSim_cons_zero] at hq ⊢
                simp only [List.headI] at hq ⊢
                exact h2.2 hq
            | succ j =>
                rw [List.length_cons, List.length_cons, List.length_nil] at hj
                exact absurd hj (by omega)
      rw [if_pos heq, if_neg h2]
      rfl

/-- C2 counterexample: on the pool `[artA, artB, artC, artD]` with no
bonuses in play, raising the threshold from 0.3 to 0.6 DECREASES the number
of groups from 3 to 2: at 0.3 the pool clusters as
`{A,B}, {C}, {D}` (C and D score only 1/4 against the representative A),
while at 0.6 B starts its own group whose representative then absorbs both
C and D (score 3/5 each), giving `{A}, {B,C,D}`. -/
theorem threshold_monotonicity_counterexample :
    (3/10 : ℚ) ≤ 6/10 ∧
    (groupSimilarArticles [artA, artB, artC, artD] (6/10)).length
      < (groupSimilarArticles [artA, artB, artC, artD] (3/10)).length := by
  constructor
  · norm_num
  · have h3 : (groupSimilarArticles [artA, artB, artC, artD] (3/10)).length = 3 := by
      with_unfolding_all rfl
    have h6 : (groupSimilarArticles [artA, artB, artC, artD] (6/10)).length = 2 := by
      with_unfolding_all rfl
    rw [h3, h6]
    norm_num

/-- C2 amended: for pools of at most 3 articles, raising the similarity
threshold can only produce equal-or-more groups (the counterexample above
shows this fails from 4 articles on). -/
theorem threshold_monotonicity_small (articles : List Article) (t u : ℚ)
    (htu : t ≤ u) (hlen : articles.length ≤ 3) :
    (groupSimilarArticles articles t).length
      ≤ (groupSimilarArticles articles u).length := by
  have qmono : ∀ s : ℚ, (u ≤ s ∧ 0 < s) → (t ≤ s ∧ 0 < s) :=
    fun s h => ⟨le_trans htu h.1, h.2⟩
  rcases articles with _ | ⟨a, _ | ⟨b, _ | ⟨c, _ | ⟨d, rest⟩⟩⟩⟩
  · exact le_refl _
  · rw [numGroups_one, numGroups_one]
  · rw [numGroups_two, numGroups_two]
    by_cases hu : u ≤ calculateSimilarity b a ∧ 0 < calculateSimilarity b a
    · rw [if_pos hu, if_pos (qmono _ hu)]
    · rw [if_neg hu]
      split <;> norm_num
  · rw [numGroups_three, numGroups_three]
    by_cases hu1 : u ≤ calculateSimilarity b a ∧ 0 < calculateSimilarity b a
    · rw [if_pos hu1, if_pos (qmono _ hu1)]
      by_cases hu2 : u ≤ calculateSimilarity c a ∧ 0 < calculateSimilarity c a
      · rw [if_pos hu2, if_pos (qmono _ hu2)]
      · rw [if_neg hu2]
        split <;> norm_num
    · rw [if_neg hu1]
      by_cases ht1 : t ≤ calculateSimilarity b a ∧ 0 < calculateSimilarity b a
      · rw [if_pos ht1]
        split <;> split <;> norm_num
      · rw [if_neg ht1]
        by_cases hu2 : (u ≤ calculateSimilarity c a ∧ 0 < calculateSimilarity c a)
            ∨ (u ≤ calculateSimilarity c b ∧ 0 < calculateSimilarity c b)
        · rw [if_pos hu2, if_pos (hu2.imp (qmono _) (qmono _))]
        · rw [if_neg hu2]
          split <;> norm_num
  · exfalso
    simp only [List.length_cons] at hlen
    omega

/-- C2 amended-claim witness: a concrete 3-article pool and threshold pair. -/
theorem threshold_monotonicity_small_witness :
    (3/10 : ℚ) ≤ 6/10 ∧ ([artA, artB, artC] : List Article).length ≤ 3 ∧
    (groupSimilarArticles [artA, artB, artC] (3/10)).length
      ≤ (groupSimilarArticles [artA, artB, artC] (6/10)).length :=
  ⟨by norm_num, by simp,
    threshold_monotonicity_small [artA, artB, artC] (3/10) (6/10) (by norm_num) (by simp)⟩

/-! ## C4 — normalization invariant -/

/-- C4: every article surfaced by `normalizeArticles` has a non-empty `url`
and a non-empty `title`; and a raw batch in which every record lacks a
usable title (all of `webTitle`, `title`, `seotitle` are missing or empty)
normalizes to the empty list — such records are dropped, not surfaced. -/
theorem normalize_invariant (source : String) (l : List Raw) :
    (∀ a ∈ normalizeArticles l source, a.url ≠ "" ∧ a.title ≠ "") ∧
    ((∀ r ∈ l, (truthy r.webTitle || truthy r.title || truthy r.seotitle) = false) →
      normalizeArticles l source = []) := by
  constructor
  · intro a ha
    unfold normalizeArticles at ha
    split at ha <;>
      first
        | exact absurd ha (List.not_mem_nil a)
        | · have hcond := (List.mem_filter.mp ha).2
            simp only [Bool.and_eq_true, decide_eq_true_eq] at hcond
            exact hcond
  · intro hall
    have hfil : l.filter hasRequiredFields = [] := by
      rw [List.filter_eq_nil_iff]
      intro r hr
      unfold hasRequiredFields
      rw [hall r hr]
      simp
    unfold normalizeArticles
    split <;> simp [hfil]

set_option maxRecDepth 8192 in
/-- C4 witness: a good guardian record survives with non-empty url/title,
and a batch consisting of one title-less record normalizes to `[]`. -/
theorem normalize_invariant_witness :
    ((normalizeGuardian rawGood).url ≠ "" ∧ (normalizeGuardian rawGood).title ≠ "") ∧
    normalizeArticles [rawNoTitle] "guardian" = [] :=
  ⟨(normalize_invariant "guardian" [rawGood]).1 (normalizeGuardian rawGood) (by decide),
   (normalize_invariant "guardian" [rawNoTitle]).2 (by decide)⟩

/-! ## C7 — retained groups span at least two sources -/

/-- C7: after the group filter, every retained group has at least 2 distinct
sources, and every group whose articles all come from a single source (fewer
than 2 distinct sources) is dropped. -/
theorem filter_multi_source (gs : List Group) (g : Group) :
    (g ∈ filterGroups gs → 2 ≤ (uniqueSources g).length) ∧
    ((uniqueSources g).length < 2 → g ∉ filterGroups gs) := by
  constructor
  · intro hg
    have hk := (List.mem_filter.mp hg).2
    unfold keepGroup at hk
    by_contra hcon
    push_neg at hcon
    rw [if_pos hcon] at hk
    cases hk
  · intro hlt hg
    have hk := (List.mem_filter.mp hg).2
    unfold keepGroup at hk
    rw [if_pos hlt] at hk
    cases hk

/-- C7 witness: a two-source group is retained with 2 distinct sources, a
single-source group is dropped. -/
theorem filter_multi_source_witness :
    2 ≤ (uniqueSources grpMulti).length ∧
    grpSingle ∉ filterGroups [grpMulti, grpSingle] :=
  ⟨(filter_multi_source [grpMulti, grpSingle] grpMulti).1 (by decide),
   (filter_multi_source [grpMulti, grpSingle] grpSingle).2 (by decide)⟩

/-! ## C8 — pagination bound, ceiling formula, clamping -/

theorem take_if_le_nine {α : Type _} (l : List α) :
    (if 9 < l.length then l.take 9 else l).length ≤ 9 := by
  split
  · simp [List.length_take]
  next h => exact Nat.le_of_not_lt h

theorem paginate_groups_le {α : Type _} (gs : List α) (pn : Option Int) :
    (paginate gs pn).groups.length ≤ 9 := by
  simp only [paginate, GROUPS_PER_PAGE]
  exact take_if_le_nine _

theorem nat_ceil_div_nine (n : Nat) :
    (Int.ceil ((n : ℚ) / 9)) = (((n + 9 - 1) / 9 : Nat) : Int) := by
  have hmod := Nat.div_add_mod (n + 8) 9
  set q : Nat := (n + 8) / 9 with hq
  have hr : (n + 8) % 9 < 9 := Nat.mod_lt _ (by norm_num)
  have h9q : 9 * q ≤ n + 8 ∧ n ≤ 9 * q := by omega
  have hle : (n : ℚ) / 9 ≤ ((q : Nat) : ℚ) := by
    rw [div_le_iff₀ (by norm_num : (0:ℚ) < 9)]
    have : (n : ℚ) ≤ 9 * (q : ℚ) := by exact_mod_cast h9q.2
    linarith
  have hlt : ((q : Nat) : ℚ) - 1 < (n : ℚ) / 9 := by
    rw [lt_div_iff₀ (by norm_num : (0:ℚ) < 9)]
    have : 9 * (q : ℚ) ≤ (n : ℚ) + 8 := by exact_mod_cast h9q.1
    linarith
  have : Int.ceil ((n : ℚ) / 9) = ((q : Nat) : Int) := by
    rw [Int.ceil_eq_iff]
    constructor
    · push_cast
      exact hlt
    · push_cast
      exact hle
  simpa using this

theorem paginate_totalPages {α : Type _} (gs : List α) (pn : Option Int) :
    (paginate gs pn).totalPages = max 1 (Int.ceil ((gs.length : ℚ) / 9)) := by
  simp only [paginate, GROUPS_PER_PAGE]
  rw [nat_ceil_div_nine]
  rcases le_or_lt (1 : Int) (((gs.length + 9 - 1) / 9 : Nat) : Int) with h | h
  · rw [if_pos h, max_eq_right h]
  · rw [if_neg (not_le.mpr h), max_eq_left (le_of_lt h)]

theorem paginate_totalPages_pos {α : Type _} (gs : List α) (pn : Option Int) :
    1 ≤ (paginate gs pn).totalPages := by
  rw [paginate_totalPages]
  exact le_max_left _ _

theorem paginate_currentPage {α : Type _} (gs : List α) (p : Int) :
    (paginate gs (some p)).currentPage
      = some (max 1 (min p (paginate gs (some p)).totalPages)) := by
  simp only [paginate, jsMax, jsMin, GROUPS_PER_PAGE]
  rw [min_def, max_def]

/-- C8: for every group list and integer page, the returned slice holds at
most 9 groups, `totalPages = max(1, ceil(totalGroups / 9))`, and
`currentPage` is the requested page clamped into `[1, totalPages]`; on the
concrete scenario of 25 groups and page 2, the result is the 9 groups at
indices 9 through 17 with `totalPages = 3` and `currentPage = 2`. -/
theorem pagination_bound_clamp :
    (∀ (α : Type) (gs : List α) (p : Int),
      (paginate gs (some p)).groups.length ≤ 9 ∧
      (paginate gs (some p)).totalPages = max 1 (Int.ceil ((gs.length : ℚ) / 9)) ∧
      (paginate gs (some p)).currentPage
        = some (max 1 (min p (paginate gs (some p)).totalPages)) ∧
      1 ≤ max 1 (min p (paginate gs (some p)).totalPages) ∧
      max 1 (min p (paginate gs (some p)).totalPages)
        ≤ (paginate gs (some p)).totalPages) ∧
    ((paginate (List.range 25) (some 2)).groups = [9, 10, 11, 12, 13, 14, 15, 16, 17] ∧
      (paginate (List.range 25) (some 2)).groups
        = ((List.range 25).drop 9).take 9 ∧
      (paginate (List.range 25) (some 2)).totalPages = 3 ∧
      (paginate (List.range 25) (some 2)).currentPage = some 2) := by
  constructor
  · intro α gs p
    refine ⟨paginate_groups_le gs (some p), paginate_totalPages gs (some p),
      paginate_currentPage gs p, le_max_left _ _, ?_⟩
    exact max_le (paginate_totalPages_pos gs (some p)) (min_le_right _ _)
  · exact ⟨by decide, by decide, by decide, by decide⟩

/-! ## C9 — a non-numeric page parameter yields NaN, not a clamped page -/

/-- C9: when the `page` query value is a non-empty string that `parseInt`
cannot parse (`NaN`), the clamp `Math.max(1, Math.min(NaN, totalPages))`
is `NaN`, the slice is empty, and the response carries a non-numeric
`currentPage` (`none`, JSON `null`) and zero groups instead of defaulting
to page 1. -/
theorem nan_page_empty_slice (α : Type) (gs : List α) (p : String)
    (hne : p ≠ "") (hnan : parseIntTen p = none) :
    routePageNum (some p) = none ∧
    (paginate gs (routePageNum (some p))).groups = [] ∧
    (paginate gs (routePageNum (some p))).currentPage = none := by
  have hroute : routePageNum (some p) = none := by
    show (if p ≠ "" then parseIntTen p else some 1) = none
    rw [if_pos hne, hnan]
  refine ⟨hroute, ?_, ?_⟩
  · rw [hroute]
    simp [paginate, jsMax, jsMin, jsSub, jsMul, jsAdd, jsSlice, toSliceIndex]
  · rw [hroute]
    simp [paginate, jsMax, jsMin]

/-- C9 witness: the concrete query string `page2` on a 3-element group
list. -/
theorem nan_page_empty_slice_witness :
    ("page2" ≠ "") ∧ parseIntTen "page2" = none ∧
    (paginate [10, 20, 30] (routePageNum (some "page2"))).groups = [] ∧
    (paginate [10, 20, 30] (routePageNum (some "page2"))).currentPage = none := by
  have h := nan_page_empty_slice Nat [10, 20, 30] "page2" (by decide) (by decide)
  exact ⟨by decide, by decide, h.2.1, h.2.2⟩

/-! ## C10 — the zero-article branch of the summarizer -/

/-- C10: `summarizeArticleGroup` on a group with an empty article list
returns the fixed record with `groupTitle = "News Story"`,
`summary = "No articles to summarize."`, both comparisons
`"No articles available for comparison."` and no differences — and that
`groupTitle` itself matches the generic-pattern check used to reject titles
elsewhere in the pipeline. -/
theorem zero_article_summary (llm : LlmOutcome) (gid : String) :
    summarizeArticleGroup llm { groupId := gid, articles := [] }
      = { groupId := gid
          groupTitle := "News Story"
          summary := "No articles to summarize."
          detailedComparison := "No articles available for comparison."
          simpleComparison := "No articles available for comparison."
          differences := [] } ∧
    isGenericTitle (some "News Story") = true :=
  ⟨rfl, by decide⟩

/-! ## C3 — the fallback title extractor can echo a generic phrase -/

/-- C3 failing input: with no title and no description and the non-empty
summary `"news story"`, `generateNeutralTitle` skips the length-gated
summary strategies (the summary is not longer than 10 characters), reaches
the final summary block, and returns `"News story"` — a string that the
generic-pattern check itself classifies as generic, contradicting the
never-generic claim. -/
theorem neutral_title_generic_echo :
    generateNeutralTitle none none (some "news story") = "News story" ∧
    isGenericTitle (some "News story") = true :=
  ⟨by decide, by decide⟩

end NewsCore
